import Mathlib

/-!
Verification development for the douyin live restreamer service.

The two subsystems embedded here are the stream discovery pipeline
(`extractLiveStreamUrl`) and the transcode session manager
(`processLiveStream`, `cleanupStream`, the stop route handler), both
translated from the JavaScript source.  Browser-driven effects (DOM
evaluation results, observed network requests, CDP analysis, the custom
in-page script, the backend API reply) are supplied as oracle inputs in a
`PageEnv`, while the orchestration logic around them — URL validation,
bucket accumulation, strategy fallback order, the decoy policy and the
try/finally browser shutdown — is translated faithfully.
-/

/-- Does the character list `pat` occur as a prefix of `cs`?
Models the positional matching underlying `String.prototype.includes`. -/
def strStartsList : List Char → List Char → Bool
  | [], _ => true
  | _ :: _, [] => false
  | p :: ps, c :: rest => p == c && strStartsList ps rest

/-- Does `pat` occur as a contiguous run anywhere in `cs`? -/
def strContainsAux (pat : List Char) : List Char → Bool
  | [] => strStartsList pat []
  | c :: rest => strStartsList pat (c :: rest) || strContainsAux pat rest

/-- Model of JavaScript `s.includes(pat)`. -/
def strContains (s pat : String) : Bool := strContainsAux pat.toList s.toList

/-- The decoy marker test used throughout the source:
`url.includes('douyin-pc-web/uuu_')`. -/
def isDecoy (u : String) : Bool := strContains u "douyin-pc-web/uuu_"

/-- The media-like request pattern of the `page.on('request')` listener. -/
def mediaMatch (u : String) : Bool :=
  strContains u ".m3u8" || strContains u ".flv" || strContains u ".mp4" ||
  strContains u "/stream/" || strContains u "/live/" || strContains u "/play/"

/-- High-confidence test: explicit streaming file extension. -/
def hiConf (u : String) : Bool := strContains u ".m3u8" || strContains u ".flv"

/-- One step of the request listener: push the url onto
(`liveStreamRequests`, `mediaRequests`) exactly as the source does. -/
def observeRequest (b : List String × List String) (url : String) :
    List String × List String :=
  if mediaMatch url then
    if !(isDecoy url) then
      if hiConf url then (b.1 ++ [url], b.2) else (b.1, b.2 ++ [url])
    else b
  else b

/-- The buckets accumulated by the request listener over the observed
requests, in arrival order: `(liveStreamRequests, mediaRequests)`. -/
def buildBuckets (reqs : List String) : List String × List String :=
  reqs.foldl observeRequest ([], [])

/-- URL validation and normalization at the head of `extractLiveStreamUrl`:
recognized domains pass unchanged; otherwise a scheme is prepended when
missing and the (normalized) url must contain a live-room path segment. -/
def validateUrl (u : String) : Option String :=
  if strContains u "douyin.com" || strContains u "tiktok.com" then some u
  else
    let u2 := if strContains u "http" then u else "https://" ++ u
    if strContains u2 "/live/" then some u2 else none

/-- Characters accepted inside the room-id capture group `([^/?]+)`. -/
def roomChars (cs : List Char) : List Char :=
  cs.takeWhile (fun c => !(c == '/') && !(c == '?'))

/-- First match of the regex `\/live\/([^/?]+)` over a character list. -/
def findRoomId : List Char → Option String
  | [] => none
  | c :: rest =>
    if strStartsList "/live/".toList (c :: rest) then
      let room := roomChars ((c :: rest).drop 6)
      if room.isEmpty then findRoomId rest else some (String.mk room)
    else findRoomId rest

/-- Room-id extraction `douyinUrl.match(/\/live\/([^/?]+)/)`. -/
def roomIdOf (u : String) : Option String := findRoomId u.toList

/-- Oracle inputs for one discovery attempt: what the browser-driven
strategies of `extractLiveStreamUrl` would produce.  `domResult` is the
value of the big DOM-extraction `page.evaluate` (null when no video
element was found or the evaluation threw), `networkRequests` are the
urls seen by the request listener before the bucket check, `cdpResult`
is the last assignment made by the CDP `Network.responseReceived`
analysis, `customScriptResult` is the iframe/performance-entry script's
value, and `apiResult` is the `flv_url`/`hls_url` extracted from the
backend reflow-info reply (null when the reply lacked one). -/
structure PageEnv where
  domResult : Option String
  networkRequests : List String
  cdpResult : Option String
  customScriptResult : Option String
  apiResult : Option String
deriving Repr, DecidableEq

/-- Terminal outcome of one discovery attempt. -/
inductive DiscResult where
  /-- The function returned a url (possibly the decoy fallback). -/
  | ok (url : String)
  /-- The initial validation threw the invalid-address error. -/
  | invalidAddress
  /-- The final throw: no stream url could be obtained. -/
  | exhausted
deriving Repr, DecidableEq

/-- Observable trace of one discovery attempt: whether the browser was
launched, whether it was closed again, whether the debug page snapshot
and screenshot were written, and the returned/thrown outcome. -/
structure DiscTrace where
  browserLaunched : Bool
  browserClosed : Bool
  diagnosticsWritten : Bool
  result : DiscResult
deriving Repr, DecidableEq

/-- Does the pipeline still need a candidate at this point?  This is the
source's recurring guard `!streamUrl || streamUrl.includes(decoy)`. -/
def needMore : Option String → Bool
  | none => true
  | some u => isDecoy u

/-- The `else` branch after the DOM check: most recent
`liveStreamRequests` entry, else most recent `mediaRequests` entry, else
whatever the CDP analysis assigned during its wait, else the previous
value of `streamUrl`. -/
def netFallback (live media : List String) (cdp prev : Option String) :
    Option String :=
  match live.getLast? with
  | some l => some l
  | none =>
    match media.getLast? with
    | some m => some m
    | none =>
      match cdp with
      | some c => some c
      | none => prev

/-- The candidate-selection pipeline of `extractLiveStreamUrl` after
navigation, over the strategy oracles: DOM check, network buckets / CDP
fallback, custom-script stage, direct API stage, in source order with the
source's decoy guards. -/
def selectUrl (env : PageEnv) (normUrl : String) : Option String :=
  let buckets := buildBuckets env.networkRequests
  let s2 : Option String :=
    match env.domResult with
    | some d =>
      if isDecoy d then netFallback buckets.1 buckets.2 env.cdpResult (some d)
      else some d
    | none => netFallback buckets.1 buckets.2 env.cdpResult none
  let s3 : Option String :=
    if needMore s2 then
      match env.customScriptResult with
      | some e => if isDecoy e then s2 else some e
      | none => s2
    else s2
  let s4 : Option String :=
    if needMore s3 then
      match roomIdOf normUrl, env.apiResult with
      | some _, some a => some a
      | _, _ => s3
    else s3
  s4

/-- The whole of `extractLiveStreamUrl`: validation (which throws before
any browser launch), then the strategy pipeline inside
try/catch/finally, the debug-artifact block, the decoy fallback return
and the final throw; the finally clause closes the browser on every
path. -/
def extractLiveStreamUrl (env : PageEnv) (douyinUrl : String) : DiscTrace :=
  match validateUrl douyinUrl with
  | none => ⟨false, false, false, .invalidAddress⟩
  | some normUrl =>
    let s := selectUrl env normUrl
    if needMore s then
      match s with
      | some d => ⟨true, true, true, .ok d⟩
      | none => ⟨true, true, true, .exhausted⟩
    else
      match s with
      | some v => ⟨true, true, false, .ok v⟩
      | none => ⟨true, true, false, .exhausted⟩

/-- Lookup in the `activeLiveStreams` map, keyed by session id; values
are process handles, identified here by a numeric pid. -/
def mapGet? (m : List (String × Nat)) (k : String) : Option Nat :=
  match m with
  | [] => none
  | (k2, v) :: rest => if k2 = k then some v else mapGet? rest k

/-- `Map.prototype.has`. -/
def mapHas (m : List (String × Nat)) (k : String) : Bool :=
  (mapGet? m k).isSome

/-- `Map.prototype.delete`. -/
def mapDelete (m : List (String × Nat)) (k : String) : List (String × Nat) :=
  m.filter (fun p => !(p.1 == k))

/-- `Map.prototype.set`: replace in place when the key exists, append
otherwise. -/
def mapSet (m : List (String × Nat)) (k : String) (v : Nat) :
    List (String × Nat) :=
  match m with
  | [] => [(k, v)]
  | (k2, v2) :: rest =>
    if k2 = k then (k, v) :: rest else (k2, v2) :: mapSet rest k v

/-- Observable state of the transcode session manager: the
`activeLiveStreams` table and the log of signals sent to processes. -/
structure ManagerState where
  table : List (String × Nat)
  signals : List (Nat × String)
deriving Repr, DecidableEq

/-- `cleanupStream(sessionId)`: when the table holds the id, kill the
registered process with SIGTERM and delete the entry; otherwise do
nothing. -/
def cleanupStream (s : ManagerState) (sessionId : String) : ManagerState :=
  match mapGet? s.table sessionId with
  | some pid =>
    ⟨mapDelete s.table sessionId, s.signals ++ [(pid, "SIGTERM")]⟩
  | none => s

/-- The `/api/stop-stream/:sessionId` route handler: on a present entry
run `cleanupStream` and answer success, on an absent entry answer the
404 absence response (`false` here) without touching the state. -/
def stopStreamHandler (s : ManagerState) (sessionId : String) :
    Bool × ManagerState :=
  if mapHas s.table sessionId then (true, cleanupStream s sessionId)
  else (false, s)

/-- The three external events that reach the cleanup path for a session:
an explicit stop request, the ffmpeg error callback, the ffmpeg end
callback. -/
inductive StopEvent where
  | stopRequest
  | errorCallback
  | endCallback
deriving Repr, DecidableEq

/-- Effect of one such event on the manager state: the stop route goes
through its handler, the two ffmpeg callbacks call `cleanupStream`
directly. -/
def applyStopEvent (s : ManagerState) (sessionId : String) :
    StopEvent → ManagerState
  | .stopRequest => (stopStreamHandler s sessionId).2
  | .errorCallback => cleanupStream s sessionId
  | .endCallback => cleanupStream s sessionId

/-- Result object of `processLiveStream`. -/
structure StreamResult where
  originalUrl : String
  transcodedUrl : Option String
  ffmpegAvailable : Bool
  error : Option String
deriving Repr, DecidableEq

/-- Filesystem/spawn effects of one `processLiveStream` call. -/
structure ProcEffects where
  dirCreated : Bool
  spawned : Bool
deriving Repr, DecidableEq

/-- `processLiveStream(streamUrl, sessionId)`.  `ffmpegAvail` is the
module-level availability flag; `mkdirError` is the message of the
exception raised by the output-directory filesystem work inside the try
block, when one is raised; `dirExists` says whether the output directory
already exists; `newPid` is the pid of the ffmpeg process a successful
spawn would create.  Unavailability returns the passthrough result
before any filesystem or process work; an exception is caught and
returned inside the result object; otherwise the process is spawned and
registered in the table (replacing any entry under the same id, no
signal sent). -/
def processLiveStream (ffmpegAvail : Bool) (mkdirError : Option String)
    (dirExists : Bool) (port : String) (st : ManagerState)
    (streamUrl sessionId : String) (newPid : Nat) :
    StreamResult × ProcEffects × ManagerState :=
  if ffmpegAvail then
    match mkdirError with
    | some e => (⟨streamUrl, none, false, some e⟩, ⟨false, false⟩, st)
    | none =>
      (⟨streamUrl,
        some ("http://localhost:" ++ port ++ "/streams/" ++ sessionId ++ ".mp4"),
        true, none⟩,
       ⟨!dirExists, true⟩,
       { st with table := mapSet st.table sessionId newPid })
  else (⟨streamUrl, none, false, none⟩, ⟨false, false⟩, st)

/-- The session id computed by the `/api/start-stream` route handler:
`Date.now().toString()`, a function of the clock alone — the request
body plays no part. -/
def restStartSessionId (now : Nat) (_requestBodyUrl : String) : String :=
  toString now

-- Sanity checks: the string model, the pipeline and the manager on
-- concrete inputs.
example : strContains "https://live/123" "/live/" = true := by decide
example : strContains "live/123" "/live/" = false := by decide
example : isDecoy "https://x.com/douyin-pc-web/uuu_1.mp4" = true := by decide
example : isDecoy "https://pull-hls.example.com/stream/abc.m3u8" = false := by
  decide
example : roomIdOf "https://www.douyin.com/live/4321?x=1" = some "4321" := by
  decide
example : buildBuckets ["https://a/x.m3u8", "https://a/play/v.mp4"] =
    (["https://a/x.m3u8"], ["https://a/play/v.mp4"]) := by decide
example :
    extractLiveStreamUrl
      ⟨some "https://a.example.com/555/play.m3u8", [], none, none, none⟩
      "https://live.douyin.com/555" =
    ⟨true, true, false, .ok "https://a.example.com/555/play.m3u8"⟩ := by decide
example :
    extractLiveStreamUrl ⟨none, [], none, none, none⟩
      "https://live.douyin.com/555" = ⟨true, true, true, .exhausted⟩ := by
  decide
example : cleanupStream ⟨[("1", 7)], []⟩ "1" = ⟨[], [(7, "SIGTERM")]⟩ := by
  decide
example : stopStreamHandler ⟨[], [(7, "SIGTERM")]⟩ "1" =
    (false, ⟨[], [(7, "SIGTERM")]⟩) := by decide
example : (processLiveStream false none false "3001" ⟨[], []⟩ "u" "1" 9).1 =
    ⟨"u", none, false, none⟩ := by decide

/-! Helper lemmas about the bucket accumulation. -/

theorem foldl_observeRequest (reqs : List String) (a b : List String) :
    reqs.foldl observeRequest (a, b) =
      (a ++ reqs.filter (fun u => mediaMatch u && !isDecoy u && hiConf u),
       b ++ reqs.filter (fun u => mediaMatch u && !isDecoy u && !hiConf u)) := by
  induction reqs generalizing a b with
  | nil => simp
  | cons r rs ih =>
    simp only [List.foldl_cons, List.filter_cons]
    cases hm : mediaMatch r
    · simp [observeRequest, hm, ih]
    · cases hd : isDecoy r
      · cases hh : hiConf r
        · simp [observeRequest, hm, hd, hh, ih]
        · simp [observeRequest, hm, hd, hh, ih]
      · simp [observeRequest, hm, hd, ih]

theorem bucket_hi_nonDecoy (reqs : List String) (x : String)
    (hx : x ∈ (buildBuckets reqs).1) : isDecoy x = false := by
  rw [buildBuckets, foldl_observeRequest reqs [] []] at hx
  simp only [List.nil_append, List.mem_filter, Bool.and_eq_true,
    Bool.not_eq_true'] at hx
  exact hx.2.1.2

theorem bucket_lo_nonDecoy (reqs : List String) (x : String)
    (hx : x ∈ (buildBuckets reqs).2) : isDecoy x = false := by
  rw [buildBuckets, foldl_observeRequest reqs [] []] at hx
  simp only [List.nil_append, List.mem_filter, Bool.and_eq_true,
    Bool.not_eq_true'] at hx
  exact hx.2.1.2

theorem getLast?_mem_list {α : Type} {l : List α} {x : α}
    (h : l.getLast? = some x) : x ∈ l := by
  rcases List.mem_getLast?_eq_getLast (show x ∈ l.getLast? by simp [h]) with
    ⟨hne, hx⟩
  rw [hx]
  exact List.getLast_mem hne

/-! Helper lemmas about the session table. -/

theorem mapGet?_delete (m : List (String × Nat)) (k : String) :
    mapGet? (mapDelete m k) k = none := by
  induction m with
  | nil => rfl
  | cons p rest ih =>
    rcases p with ⟨k2, v⟩
    by_cases h : k2 = k
    · simpa [mapDelete, List.filter_cons, h] using ih
    · simpa [mapDelete, List.filter_cons, h, mapGet?] using ih

theorem mapGet?_set (m : List (String × Nat)) (k : String) (v : Nat) :
    mapGet? (mapSet m k v) k = some v := by
  induction m with
  | nil => simp [mapSet, mapGet?]
  | cons p rest ih =>
    rcases p with ⟨k2, v2⟩
    by_cases h : k2 = k
    · simp [mapSet, h, mapGet?]
    · simp [mapSet, h, mapGet?, ih]

theorem cleanupStream_present (s : ManagerState) (id : String) (pid : Nat)
    (h : mapGet? s.table id = some pid) :
    cleanupStream s id =
      ⟨mapDelete s.table id, s.signals ++ [(pid, "SIGTERM")]⟩ := by
  simp [cleanupStream, h]

theorem cleanupStream_absent (s : ManagerState) (id : String)
    (h : mapGet? s.table id = none) : cleanupStream s id = s := by
  simp [cleanupStream, h]

theorem applyStopEvent_eq (s : ManagerState) (id : String) (e : StopEvent) :
    applyStopEvent s id e = cleanupStream s id := by
  cases e with
  | stopRequest =>
    cases h : mapGet? s.table id <;>
      simp [applyStopEvent, stopStreamHandler, mapHas, cleanupStream, h]
  | errorCallback => rfl
  | endCallback => rfl

theorem foldl_stopEvents_absent (id : String) (evs : List StopEvent)
    (s : ManagerState) (h : mapGet? s.table id = none) :
    evs.foldl (fun st e => applyStopEvent st id e) s = s := by
  induction evs with
  | nil => rfl
  | cons e rest ih =>
    rw [List.foldl_cons, applyStopEvent_eq, cleanupStream_absent s id h]
    exact ih

/-- Claim C1: for a sessionId registered in `activeLiveStreams`, every
nonempty sequence of stop requests and ffmpeg error/end callbacks sends
exactly one SIGTERM to the registered process, removes the table entry
exactly once, and afterwards the table holds no entry for that id. -/
theorem claim_C1 (s : ManagerState) (id : String) (pid : Nat)
    (evs : List StopEvent) (h : mapGet? s.table id = some pid)
    (hne : evs ≠ []) :
    (evs.foldl (fun st e => applyStopEvent st id e) s).signals
        = s.signals ++ [(pid, "SIGTERM")] ∧
    (evs.foldl (fun st e => applyStopEvent st id e) s).table
        = mapDelete s.table id ∧
    mapHas (evs.foldl (fun st e => applyStopEvent st id e) s).table id
        = false := by
  cases evs with
  | nil => exact absurd rfl hne
  | cons e rest =>
    rw [List.foldl_cons, applyStopEvent_eq, cleanupStream_present s id pid h]
    have h1 : mapGet?
        (⟨mapDelete s.table id, s.signals ++ [(pid, "SIGTERM")]⟩ :
          ManagerState).table id = none := mapGet?_delete s.table id
    rw [foldl_stopEvents_absent id rest _ h1]
    exact ⟨rfl, rfl, by simp [mapHas, h1]⟩

/-- Witness for C1 at a concrete state: one registered session, a stop
request followed by an error callback. -/
theorem claim_C1_witness :
    mapGet? [("1", 7)] "1" = some 7 ∧
    (([StopEvent.stopRequest, StopEvent.errorCallback].foldl
        (fun st e => applyStopEvent st "1" e) ⟨[("1", 7)], []⟩).signals
      = [(7, "SIGTERM")]) :=
  ⟨by decide,
   (claim_C1 ⟨[("1", 7)], []⟩ "1" 7 [.stopRequest, .errorCallback]
      (by decide) (by decide)).1⟩

/-- Claim C6: stop is idempotent — with the entry present the first stop
returns true, sends the signal, deletes the entry; the second stop
returns false and leaves the state unchanged; both are plain returns
(the handler is a total function, nothing throws). -/
theorem claim_C6 (s : ManagerState) (id : String) (pid : Nat)
    (h : mapGet? s.table id = some pid) :
    (stopStreamHandler s id).1 = true ∧
    (stopStreamHandler s id).2 =
      ⟨mapDelete s.table id, s.signals ++ [(pid, "SIGTERM")]⟩ ∧
    (stopStreamHandler (stopStreamHandler s id).2 id).1 = false ∧
    (stopStreamHandler (stopStreamHandler s id).2 id).2 =
      (stopStreamHandler s id).2 := by
  have hh : mapHas s.table id = true := by simp [mapHas, h]
  have h2 : stopStreamHandler s id =
      (true, ⟨mapDelete s.table id, s.signals ++ [(pid, "SIGTERM")]⟩) := by
    simp [stopStreamHandler, hh, cleanupStream, h]
  have h3 : mapHas (mapDelete s.table id) id = false := by
    simp [mapHas, mapGet?_delete]
  rw [h2]
  refine ⟨rfl, rfl, ?_, ?_⟩ <;> simp [stopStreamHandler, h3]

/-- Witness for C6 at a concrete one-entry table. -/
theorem claim_C6_witness :
    mapGet? [("1", 7)] "1" = some 7 ∧
    (stopStreamHandler ⟨[("1", 7)], []⟩ "1").1 = true ∧
    (stopStreamHandler (stopStreamHandler ⟨[("1", 7)], []⟩ "1").2 "1").1
      = false :=
  ⟨by decide,
   (claim_C6 ⟨[("1", 7)], []⟩ "1" 7 (by decide)).1,
   (claim_C6 ⟨[("1", 7)], []⟩ "1" 7 (by decide)).2.2.1⟩

/-- Claim C7: with the ffmpeg availability flag false,
`processLiveStream` returns the passthrough result (original url, null
transcoded url), creates no directory, spawns no process and leaves the
session table untouched. -/
theorem claim_C7 (mkdirError : Option String) (dirExists : Bool)
    (port : String) (st : ManagerState) (streamUrl sessionId : String)
    (newPid : Nat) :
    processLiveStream false mkdirError dirExists port st streamUrl
        sessionId newPid
      = (⟨streamUrl, none, false, none⟩, ⟨false, false⟩, st) := rfl

/-- Claim C10: `processLiveStream` is a total function (it never
throws); when the try block raises, the exception is caught and the
result carries the original url, a null transcoded url, a false
`ffmpegAvailable` field even though the availability flag is true, and
the error message. -/
theorem claim_C10 (e : String) (dirExists : Bool) (port : String)
    (st : ManagerState) (streamUrl sessionId : String) (newPid : Nat) :
    processLiveStream true (some e) dirExists port st streamUrl
        sessionId newPid
      = (⟨streamUrl, none, false, some e⟩, ⟨false, false⟩, st) := rfl

/-- Claim C9: the REST start handler's session id is a function of the
clock alone, so two bodies handled in the same millisecond get the same
id; and registering a session under an id already in the table replaces
the entry with the new process handle without sending any signal. -/
theorem claim_C9 (now : Nat) (body1 body2 : String) (st : ManagerState)
    (oldPid newPid : Nat) (dirExists : Bool) (port streamUrl : String) :
    restStartSessionId now body1 = restStartSessionId now body2 ∧
    (mapGet? st.table (restStartSessionId now body1) = some oldPid →
      mapGet? (processLiveStream true none dirExists port st streamUrl
          (restStartSessionId now body1) newPid).2.2.table
          (restStartSessionId now body1) = some newPid ∧
      (processLiveStream true none dirExists port st streamUrl
          (restStartSessionId now body1) newPid).2.2.signals
        = st.signals) := by
  refine ⟨rfl, fun _ => ⟨?_, rfl⟩⟩
  simp [processLiveStream, mapGet?_set]

/-! Helper lemmas about the discovery pipeline. -/

theorem extract_valid (env : PageEnv) (u u2 : String)
    (hv : validateUrl u = some u2) :
    extractLiveStreamUrl env u =
      (if needMore (selectUrl env u2) then
        match selectUrl env u2 with
        | some d => ⟨true, true, true, .ok d⟩
        | none => ⟨true, true, true, .exhausted⟩
      else
        match selectUrl env u2 with
        | some v => ⟨true, true, false, .ok v⟩
        | none => ⟨true, true, false, .exhausted⟩) := by
  unfold extractLiveStreamUrl
  rw [hv]

theorem extract_nonDecoy (env : PageEnv) (u u2 v : String)
    (hv : validateUrl u = some u2) (hs : selectUrl env u2 = some v)
    (hd : isDecoy v = false) :
    extractLiveStreamUrl env u = ⟨true, true, false, .ok v⟩ := by
  rw [extract_valid env u u2 hv, hs]
  simp [needMore, hd]

theorem extract_decoyFallback (env : PageEnv) (u u2 d : String)
    (hv : validateUrl u = some u2) (hs : selectUrl env u2 = some d)
    (hd : isDecoy d = true) :
    extractLiveStreamUrl env u = ⟨true, true, true, .ok d⟩ := by
  rw [extract_valid env u u2 hv, hs]
  simp [needMore, hd]

theorem extract_none (env : PageEnv) (u u2 : String)
    (hv : validateUrl u = some u2) (hs : selectUrl env u2 = none) :
    extractLiveStreamUrl env u = ⟨true, true, true, .exhausted⟩ := by
  rw [extract_valid env u u2 hv, hs]
  simp [needMore]

theorem selectUrl_dom (env : PageEnv) (u2 d : String)
    (hdom : env.domResult = some d) (hd : isDecoy d = false) :
    selectUrl env u2 = some d := by
  unfold selectUrl
  rw [hdom]
  simp [hd, needMore]

theorem selectUrl_net_hi (env : PageEnv) (u2 l : String)
    (hdom : env.domResult = none)
    (hl : (buildBuckets env.networkRequests).1.getLast? = some l) :
    selectUrl env u2 = some l := by
  have hld : isDecoy l = false :=
    bucket_hi_nonDecoy env.networkRequests l (getLast?_mem_list hl)
  unfold selectUrl
  rw [hdom]
  simp [netFallback, hl, needMore, hld]

theorem selectUrl_net_lo (env : PageEnv) (u2 m : String)
    (hdom : env.domResult = none)
    (hhi : (buildBuckets env.networkRequests).1 = [])
    (hm : (buildBuckets env.networkRequests).2.getLast? = some m) :
    selectUrl env u2 = some m := by
  have hmd : isDecoy m = false :=
    bucket_lo_nonDecoy env.networkRequests m (getLast?_mem_list hm)
  unfold selectUrl
  rw [hdom]
  simp [netFallback, hhi, hm, needMore, hmd]

/-- Witness for C9: two same-millisecond ids coincide and registration
over the existing entry replaces it. -/
theorem claim_C9_witness :
    restStartSessionId 5 "a" = restStartSessionId 5 "b" ∧
    mapGet? [("5", 7)] "5" = some 7 ∧
    mapGet? (processLiveStream true none false "3001" ⟨[("5", 7)], []⟩
        "u" (restStartSessionId 5 "a") 9).2.2.table
        (restStartSessionId 5 "a") = some 9 :=
  ⟨(claim_C9 5 "a" "b" ⟨[("5", 7)], []⟩ 7 9 false "3001" "u").1,
   by decide,
   ((claim_C9 5 "a" "b" ⟨[("5", 7)], []⟩ 7 9 false "3001" "u").2
      (by decide)).1⟩

/-- Claim C3: deterministic fallback order — a non-decoy DOM result is
returned whatever the buckets hold (they are not consulted); with an
empty DOM result the returned value is the most recent high-confidence
bucket entry when that bucket is nonempty, and otherwise the most recent
low-confidence bucket entry. -/
theorem claim_C3 (env : PageEnv) (u u2 : String)
    (hv : validateUrl u = some u2) :
    (∀ d, env.domResult = some d → isDecoy d = false →
      (extractLiveStreamUrl env u).result = .ok d) ∧
    (∀ l, env.domResult = none →
      (buildBuckets env.networkRequests).1.getLast? = some l →
      (extractLiveStreamUrl env u).result = .ok l) ∧
    (∀ m, env.domResult = none →
      (buildBuckets env.networkRequests).1 = [] →
      (buildBuckets env.networkRequests).2.getLast? = some m →
      (extractLiveStreamUrl env u).result = .ok m) := by
  refine ⟨fun d hdom hd => ?_, fun l hdom hl => ?_, fun m hdom hhi hm => ?_⟩
  · rw [extract_nonDecoy env u u2 d hv (selectUrl_dom env u2 d hdom hd) hd]
  · rw [extract_nonDecoy env u u2 l hv (selectUrl_net_hi env u2 l hdom hl)
      (bucket_hi_nonDecoy env.networkRequests l (getLast?_mem_list hl))]
  · rw [extract_nonDecoy env u u2 m hv
      (selectUrl_net_lo env u2 m hdom hhi hm)
      (bucket_lo_nonDecoy env.networkRequests m (getLast?_mem_list hm))]

/-- Witness for C3: a page with no DOM result whose observed requests
fill only the high-confidence bucket; the returned url is the most
recent bucket entry. -/
theorem claim_C3_witness :
    validateUrl "https://live.douyin.com/555" = some "https://live.douyin.com/555" ∧
    (buildBuckets ["https://a/1.m3u8", "https://a/2.flv"]).1.getLast?
      = some "https://a/2.flv" ∧
    (extractLiveStreamUrl
        ⟨none, ["https://a/1.m3u8", "https://a/2.flv"], none, none, none⟩
        "https://live.douyin.com/555").result = .ok "https://a/2.flv" :=
  ⟨by decide, by decide,
   (claim_C3 ⟨none, ["https://a/1.m3u8", "https://a/2.flv"], none, none, none⟩
      "https://live.douyin.com/555" "https://live.douyin.com/555"
      (by decide)).2.1 "https://a/2.flv" rfl (by decide)⟩

/-- Claim C5: once the browser has been launched within one discovery
attempt, the finally clause closes it on every exit path — successful
return, decoy-fallback return, and every thrown error alike. -/
theorem claim_C5 (env : PageEnv) (douyinUrl : String)
    (h : (extractLiveStreamUrl env douyinUrl).browserLaunched = true) :
    (extractLiveStreamUrl env douyinUrl).browserClosed = true := by
  cases hv : validateUrl douyinUrl with
  | none =>
    rw [show extractLiveStreamUrl env douyinUrl =
        ⟨false, false, false, .invalidAddress⟩ by
      unfold extractLiveStreamUrl
      rw [hv]] at h
    simp at h
  | some u2 =>
    rw [extract_valid env douyinUrl u2 hv]
    cases hn : needMore (selectUrl env u2) <;>
      cases hs : selectUrl env u2 <;> simp [hn, hs]

/-- Witness for C5: a concrete attempt that launches the browser and
closes it. -/
theorem claim_C5_witness :
    (extractLiveStreamUrl ⟨none, [], none, none, none⟩
        "https://live.douyin.com/555").browserLaunched = true ∧
    (extractLiveStreamUrl ⟨none, [], none, none, none⟩
        "https://live.douyin.com/555").browserClosed = true :=
  ⟨by decide,
   claim_C5 ⟨none, [], none, none, none⟩ "https://live.douyin.com/555"
     (by decide)⟩

/-- Counterexample to C4 as stated: `"live/123"` contains neither a
recognized domain nor the segment `/live/`, yet validation passes —
prepending the scheme manufactures `"https://live/123"`, which does
contain `/live/` — and the browser is launched. -/
theorem claim_C4_counterexample :
    strContains "live/123" "douyin.com" = false ∧
    strContains "live/123" "tiktok.com" = false ∧
    strContains "live/123" "/live/" = false ∧
    (extractLiveStreamUrl ⟨none, [], none, none, none⟩
        "live/123").browserLaunched = true := by
  decide

/-- Claim C4 as amended: for every input URL containing neither a
recognized domain nor — after normalization, i.e. on the URL obtained by
prepending `https://` when the input lacks the substring `http` — the
segment `/live/`, the discovery operation fails with the invalid-address
error before any browser session is opened. -/
theorem claim_C4_amended (env : PageEnv) (u : String)
    (h1 : strContains u "douyin.com" = false)
    (h2 : strContains u "tiktok.com" = false)
    (h3 : strContains (if strContains u "http" then u else "https://" ++ u)
        "/live/" = false) :
    extractLiveStreamUrl env u = ⟨false, false, false, .invalidAddress⟩ := by
  have hv : validateUrl u = none := by
    unfold validateUrl
    rw [h1, h2]
    simp [h3]
  unfold extractLiveStreamUrl
  rw [hv]

/-- Witness for the amended C4 at a concrete invalid address. -/
theorem claim_C4_witness :
    strContains "http://example.com/watch" "douyin.com" = false ∧
    strContains "http://example.com/watch" "tiktok.com" = false ∧
    strContains (if strContains "http://example.com/watch" "http" then
        "http://example.com/watch" else
        "https://" ++ "http://example.com/watch") "/live/" = false ∧
    extractLiveStreamUrl ⟨none, [], none, none, none⟩
        "http://example.com/watch" =
      ⟨false, false, false, .invalidAddress⟩ :=
  ⟨by decide, by decide, by decide,
   claim_C4_amended ⟨none, [], none, none, none⟩ "http://example.com/watch"
     (by decide) (by decide) (by decide)⟩

/-- Counterexample to C8 as stated: no fixed bound N caps the bucket
lengths — for every N, observing N+1 matching non-decoy requests leaves
N+1 entries in the high-confidence bucket. -/
theorem claim_C8_counterexample :
    ¬ ∃ N : Nat, ∀ reqs : List String,
        (buildBuckets reqs).1.length ≤ N ∧
        (buildBuckets reqs).2.length ≤ N := by
  rintro ⟨N, h⟩
  have h1 := (h (List.replicate (N + 1) "a.m3u8")).1
  rw [buildBuckets, foldl_observeRequest] at h1
  have hfilter : (List.replicate (N + 1) "a.m3u8").filter
      (fun u => mediaMatch u && !isDecoy u && hiConf u)
      = List.replicate (N + 1) "a.m3u8" :=
    List.filter_eq_self.2 (fun a ha => by
      rw [List.eq_of_mem_replicate ha]
      decide)
  rw [hfilter] at h1
  simp at h1

/-- Claim C8 as amended: the buckets are unbounded — each bucket holds
every matching non-decoy request observed during the attempt, in arrival
order (most recent last), with no truncation. -/
theorem claim_C8_amended (reqs : List String) :
    buildBuckets reqs =
      (reqs.filter (fun u => mediaMatch u && !isDecoy u && hiConf u),
       reqs.filter (fun u => mediaMatch u && !isDecoy u && !hiConf u)) := by
  rw [buildBuckets, foldl_observeRequest]
  simp

theorem selectUrl_domDecoy_held (env : PageEnv) (u2 d : String)
    (hdom : env.domResult = some d) (hd : isDecoy d = true)
    (hb : buildBuckets env.networkRequests = ([], []))
    (hc : env.cdpResult = none)
    (hx : env.customScriptResult = none ∨
      ∃ e, env.customScriptResult = some e ∧ isDecoy e = true)
    (ha : env.apiResult = none ∨ roomIdOf u2 = none) :
    selectUrl env u2 = some d := by
  simp only [selectUrl, hdom, hd, hb, hc, netFallback, needMore]
  rcases hx with hx | ⟨e, hxe, hde⟩ <;> rcases ha with ha | ha
  · cases hr : roomIdOf u2 <;> simp [hx, hr, hd, ha]
  · cases hapi : env.apiResult <;> simp [hx, ha, hd, hapi]
  · cases hr : roomIdOf u2 <;> simp [hxe, hde, hd, hr, ha]
  · cases hapi : env.apiResult <;> simp [hxe, hde, hd, ha, hapi]

theorem selectUrl_domDecoy_api (env : PageEnv) (u2 d rid a : String)
    (hdom : env.domResult = some d) (hd : isDecoy d = true)
    (hb : buildBuckets env.networkRequests = ([], []))
    (hc : env.cdpResult = none)
    (hx : env.customScriptResult = none ∨
      ∃ e, env.customScriptResult = some e ∧ isDecoy e = true)
    (hr : roomIdOf u2 = some rid) (ha : env.apiResult = some a) :
    selectUrl env u2 = some a := by
  simp only [selectUrl, hdom, hd, hb, hc, ha, hr, netFallback, needMore]
  rcases hx with hx | ⟨e, hxe, hde⟩
  · simp [hx, hd]
  · simp [hxe, hde, hd]

theorem selectUrl_domDecoy_net (env : PageEnv) (u2 d l : String)
    (hdom : env.domResult = some d) (hd : isDecoy d = true)
    (hl : (buildBuckets env.networkRequests).1.getLast? = some l) :
    selectUrl env u2 = some l := by
  have hld : isDecoy l = false :=
    bucket_hi_nonDecoy env.networkRequests l (getLast?_mem_list hl)
  simp only [selectUrl, hdom, hd, netFallback, needMore]
  simp [hl, hld]

theorem selectUrl_nothing (env : PageEnv) (u2 : String)
    (hdom : env.domResult = none)
    (hb : buildBuckets env.networkRequests = ([], []))
    (hc : env.cdpResult = none)
    (hx : env.customScriptResult = none)
    (ha : env.apiResult = none) :
    selectUrl env u2 = none := by
  simp only [selectUrl, hdom, hb, hc, hx, ha, netFallback, needMore]
  cases hr : roomIdOf u2 <;> simp [hr]

/-- Counterexample to C2 as stated: an attempt in which every strategy
yields only decoy-marked URLs (the network listener sees one decoy, the
custom script produces another; the rest produce nothing) ends in the
exhausted error, not in a degraded success returning the decoy — decoys
seen on the network or produced by the custom script are discarded, not
held as fallback. -/
theorem claim_C2_counterexample :
    isDecoy "https://x.com/douyin-pc-web/uuu_1.m3u8" = true ∧
    isDecoy "https://y.com/douyin-pc-web/uuu_2.flv" = true ∧
    extractLiveStreamUrl
        ⟨none, ["https://x.com/douyin-pc-web/uuu_1.m3u8"], none,
         some "https://y.com/douyin-pc-web/uuu_2.flv", none⟩
        "https://live.douyin.com/555" = ⟨true, true, true, .exhausted⟩ := by
  decide

/-- Claim C2 as amended: a decoy-marked URL produced by DOM extraction
is held as a last-resort fallback and does not short-circuit the
remaining strategies (a later non-decoy candidate supersedes it), while
decoy URLs observed by the network listener or produced by the custom
script are discarded rather than held, and the direct API query's
result is assigned without any decoy check, superseding the held value.
When the DOM strategy produced a decoy, the later strategies yield
nothing or only discarded decoys, and the API stage yields nothing (no
parseable room id, or no stream url in the reply), the attempt writes
the full-page HTML snapshot and screenshot and returns that DOM decoy
URL (distinguishable by the decoy marker); when the API stage yields a
decoy instead, the same diagnostics are written and that API decoy is
returned in place of the held one; when no candidate at all is held at
the end, the attempt writes the same diagnostics and fails with an
error. -/
theorem claim_C2_amended (env : PageEnv) (u u2 : String)
    (hv : validateUrl u = some u2) :
    (∀ d, env.domResult = some d → isDecoy d = true →
      buildBuckets env.networkRequests = ([], []) →
      env.cdpResult = none →
      (env.customScriptResult = none ∨
        ∃ e, env.customScriptResult = some e ∧ isDecoy e = true) →
      (env.apiResult = none ∨ roomIdOf u2 = none) →
      extractLiveStreamUrl env u = ⟨true, true, true, .ok d⟩) ∧
    (∀ d rid a, env.domResult = some d → isDecoy d = true →
      buildBuckets env.networkRequests = ([], []) →
      env.cdpResult = none →
      (env.customScriptResult = none ∨
        ∃ e, env.customScriptResult = some e ∧ isDecoy e = true) →
      roomIdOf u2 = some rid → env.apiResult = some a → isDecoy a = true →
      extractLiveStreamUrl env u = ⟨true, true, true, .ok a⟩) ∧
    (∀ d l, env.domResult = some d → isDecoy d = true →
      (buildBuckets env.networkRequests).1.getLast? = some l →
      extractLiveStreamUrl env u = ⟨true, true, false, .ok l⟩) ∧
    (env.domResult = none →
      buildBuckets env.networkRequests = ([], []) →
      env.cdpResult = none →
      env.customScriptResult = none →
      env.apiResult = none →
      extractLiveStreamUrl env u = ⟨true, true, true, .exhausted⟩) := by
  refine ⟨fun d hdom hd hb hc hx ha => ?_,
    fun d rid a hdom hd hb hc hx hr ha hda => ?_,
    fun d l hdom hd hl => ?_, fun hdom hb hc hx ha => ?_⟩
  · exact extract_decoyFallback env u u2 d hv
      (selectUrl_domDecoy_held env u2 d hdom hd hb hc hx ha) hd
  · exact extract_decoyFallback env u u2 a hv
      (selectUrl_domDecoy_api env u2 d rid a hdom hd hb hc hx hr ha) hda
  · exact extract_nonDecoy env u u2 l hv
      (selectUrl_domDecoy_net env u2 d l hdom hd hl)
      (bucket_hi_nonDecoy env.networkRequests l (getLast?_mem_list hl))
  · exact extract_none env u u2 hv
      (selectUrl_nothing env u2 hdom hb hc hx ha)

/-- Witness for the amended C2, exercising both degraded cases: a
DOM-produced decoy with every later strategy empty is returned with
diagnostics written, and with an API-produced decoy present the API
decoy is returned instead of the held DOM decoy. -/
theorem claim_C2_witness :
    isDecoy "https://z.com/douyin-pc-web/uuu_3.mp4" = true ∧
    extractLiveStreamUrl
        ⟨some "https://z.com/douyin-pc-web/uuu_3.mp4", [], none, none, none⟩
        "https://live.douyin.com/555" =
      ⟨true, true, true, .ok "https://z.com/douyin-pc-web/uuu_3.mp4"⟩ ∧
    extractLiveStreamUrl
        ⟨some "https://z.com/douyin-pc-web/uuu_3.mp4", [], none, none,
         some "https://w.com/douyin-pc-web/uuu_4.flv"⟩
        "https://www.douyin.com/live/555" =
      ⟨true, true, true, .ok "https://w.com/douyin-pc-web/uuu_4.flv"⟩ :=
  ⟨by decide,
   (claim_C2_amended
      ⟨some "https://z.com/douyin-pc-web/uuu_3.mp4", [], none, none, none⟩
      "https://live.douyin.com/555" "https://live.douyin.com/555"
      (by decide)).1 "https://z.com/douyin-pc-web/uuu_3.mp4" rfl (by decide)
      (by decide) rfl (Or.inl rfl) (Or.inl rfl),
   (claim_C2_amended
      ⟨some "https://z.com/douyin-pc-web/uuu_3.mp4", [], none, none,
       some "https://w.com/douyin-pc-web/uuu_4.flv"⟩
      "https://www.douyin.com/live/555" "https://www.douyin.com/live/555"
      (by decide)).2.1 "https://z.com/douyin-pc-web/uuu_3.mp4" "555"
      "https://w.com/douyin-pc-web/uuu_4.flv" rfl (by decide) (by decide)
      rfl (Or.inl rfl) (by decide) rfl (by decide)⟩
